import Mathlib

/-!
Verification of the agentic-devtools repository: a shallow embedding of the
conversation orchestrator (`src/agent/agent.py`), the tool layer
(`src/agent/tools.py`) and the supporting utilities (`src/utils/ruff_parser.py`,
`src/utils/vector_store_singleton.py`, `src/utils/github_searcher.py`).

External collaborators (subprocesses, the network, the LLM chain, the Chroma
backend) are passed in as explicit function parameters; module-level mutable
state is threaded explicitly.  Python exceptions are modelled with
`Except`/`PyResult` values.
-/

set_option maxRecDepth 10000
set_option linter.unusedVariables false

namespace DevTools

/-- Outcome of a Python expression: a value, or a raised exception
(identified by its message). -/
inductive PyResult (α : Type) where
  | ok (a : α)
  | exn (e : String)
  deriving Repr, DecidableEq

/-! ## Orchestrator state machine (`src/agent/agent.py`) -/

/-- One tool call attached to an assistant message (name, argument mapping,
correlation id). -/
structure ToolCall where
  name : String
  args : List (String × String)
  id : String
  deriving Repr, DecidableEq

/-- A conversation message as held in `MessagesState`; `tool_calls` is empty
for non-assistant messages. -/
structure Message where
  role : String
  content : String
  tool_calls : List ToolCall
  deriving Repr, DecidableEq

/-- The langgraph `END` sentinel. -/
def END_NODE : String := "__end__"

/-- `_should_continue(state)`: routes on the last message of the state —
`"tools" if state["messages"][-1].tool_calls else END`.  Reading
`messages[-1]` requires a non-empty history. -/
def should_continue (messages : List Message) (h : messages ≠ []) : String :=
  if (messages.getLast h).tool_calls.isEmpty then END_NODE else "tools"

/-- The nodes of the compiled graph; `terminal` is the implicit `DONE`
state reached through langgraph's `END`. -/
inductive GNode where
  | orchestrator
  | tools
  | terminal
  deriving Repr, DecidableEq

/-- The edge function of the compiled graph: the conditional edge out of
`orchestrator` follows `_should_continue`, and `add_edge("tools",
"orchestrator")` sends the tool node back to the orchestrator. -/
def next_node (current : GNode) (messages : List Message) (h : messages ≠ []) : GNode :=
  match current with
  | .orchestrator => if should_continue messages h = "tools" then .tools else .terminal
  | .tools => .orchestrator
  | .terminal => .terminal

/-! ## `format_code` (`src/agent/tools.py`) -/

/-- Result of `subprocess.run(..., capture_output=True, text=True)`. -/
structure CompletedProcess where
  returncode : Int
  stdout : String
  stderr : String
  deriving Repr, DecidableEq

/-- The argv appended to every ruff invocation
(`["--stdin-filename", "code.py", "-"]`). -/
def STDIN_ARGS : List String := ["--stdin-filename", "code.py", "-"]

/-- `format_code(code)`: run `ruff format` as a subprocess on `code` and
return its captured stdout; the exit code and stderr are discarded.
`run` models the external subprocess (argv, stdin text ↦ completed
process). -/
def format_code (run : List String → String → CompletedProcess) (code : String) : String :=
  let result := run ("ruff" :: "format" :: STDIN_ARGS) code
  result.stdout

/-! ## `run_tests` (`src/agent/tools.py`) -/

/-- Outcome of attempting `subprocess.run(["pytest", tmp_path, ...])`:
either a completed process, or the call itself raises (e.g. the runner
binary cannot be invoked). -/
inductive SubprocessOutcome where
  | completed (returncode : Int) (stdout stderr : String)
  | raised (exc : String)
  deriving Repr, DecidableEq

/-- `run_tests(test_code)`: write `test_code` to a fresh uniquely named
temporary file, invoke pytest on it, and build the summary string; the
`finally:` block unlinks the temporary file on every exit path.  The file
system is a list of (path, contents) pairs; `runner` models the pytest
invocation on the temporary path. -/
def run_tests (runner : String → SubprocessOutcome) (fs : List (String × String))
    (tmp_path : String) (test_code : String) : PyResult String × List (String × String) :=
  let fs1 := fs ++ [(tmp_path, test_code)]
  match runner tmp_path with
  | .completed rc out err =>
      let output := (out ++ err).trim
      let status := if rc = 0 then "PASSED" else "FAILED"
      (.ok ("Tests " ++ status ++ " (exit code " ++ toString rc ++ ")\n\n" ++ output),
        fs1.filter (·.fst ≠ tmp_path))
  | .raised e => (.exn e, fs1.filter (·.fst ≠ tmp_path))

/-! ## Lazy vector-store singletons

`src/agent/tools.py` keeps `_vector_store = None` at module level and
`_get_vector_store` constructs on first call.  `src/utils/vector_store_singleton.py`
declares `global vector_store` but its module body never binds the name.
Constructed `CodeVectorStore` instances are identified by a numeric id so
that "constructed at most once" is expressible. -/

/-- Module state of `src/agent/tools.py` relevant to the singleton: the
current value of `_vector_store` and how many `CodeVectorStore()`
constructions have happened. -/
structure ToolsModuleState where
  binding : Option Nat
  constructions : Nat
  deriving Repr, DecidableEq

/-- `_vector_store = None` at import time; nothing constructed yet. -/
def toolsModuleInit : ToolsModuleState := ⟨none, 0⟩

/-- `_get_vector_store()`: construct a `CodeVectorStore` when the module
global is `None`, else return the stored instance. -/
def tools_get_vector_store : ToolsModuleState → Nat × ToolsModuleState
  | ⟨none, c⟩ => (c, ⟨some c, c + 1⟩)
  | ⟨some s, c⟩ => (s, ⟨some s, c⟩)

/-- Module state after `n` successive calls to `_get_vector_store` in a
fresh process. -/
def tools_calls : Nat → ToolsModuleState
  | 0 => toolsModuleInit
  | n + 1 => (tools_get_vector_store (tools_calls n)).snd

/-- A Python global name is unbound (reading it raises `NameError`), bound
to `None`, or bound to an instance. -/
inductive GlobalBinding where
  | unbound
  | boundNone
  | boundInst (id : Nat)
  deriving Repr, DecidableEq

/-- Module state of `src/utils/vector_store_singleton.py`: the binding of
the global `vector_store` and the construction count. -/
structure SingletonModuleState where
  binding : GlobalBinding
  constructions : Nat
  deriving Repr, DecidableEq

/-- The module body of `vector_store_singleton.py` contains only the
function definition: it never binds `vector_store`. -/
def singletonModuleInit : SingletonModuleState := ⟨.unbound, 0⟩

/-- `get_vector_store()` from `vector_store_singleton.py`: evaluates
`vector_store is None` on the global, which raises `NameError` when the
name is unbound; otherwise behaves as a lazy constructor. -/
def get_vector_store : SingletonModuleState → PyResult Nat × SingletonModuleState
  | ⟨.unbound, c⟩ =>
      (.exn "NameError: name 'vector_store' is not defined", ⟨.unbound, c⟩)
  | ⟨.boundNone, c⟩ => (.ok c, ⟨.boundInst c, c + 1⟩)
  | ⟨.boundInst s, c⟩ => (.ok s, ⟨.boundInst s, c⟩)

/-- Module state after `n` successive calls to `get_vector_store` in a
fresh process (a raised `NameError` leaves the state unchanged). -/
def singleton_calls : Nat → SingletonModuleState
  | 0 => singletonModuleInit
  | n + 1 => (get_vector_store (singleton_calls n)).snd

/-! ## RAG retrieval and `refactor` (`src/agent/tools.py`) -/

/-- A langchain `Document`: a text payload. -/
structure Doc where
  page_content : String
  deriving Repr, DecidableEq

/-- `CodeVectorStore`: stored documents plus the backend's similarity
ranking (most-similar first), treated as an opaque external oracle. -/
structure CodeVectorStore where
  docs : List Doc
  rank : String → List Doc → List Doc

/-- `store.as_retriever(search_kwargs={"k": k}).invoke(query)`: the top
`k` most similar stored documents. -/
def CodeVectorStore.retrieve (s : CodeVectorStore) (k : Nat) (query : String) : List Doc :=
  (s.rank query s.docs).take k

/-- The documents retrieved by `_rag_context`'s `try` body: `k = 3`; a
failing store lookup contributes nothing. -/
def rag_docs (getStore : Except String CodeVectorStore) (query : String) : List Doc :=
  match getStore with
  | .error _ => []
  | .ok s => s.retrieve 3 query

/-- `_rag_context(query)`: join the retrieved snippets, or return `""`
when the store is unavailable (`except Exception: return ""`). -/
def rag_context (getStore : Except String CodeVectorStore) (query : String) : String :=
  match getStore with
  | .error _ => ""
  | .ok s => String.intercalate "\n\n---\n\n" ((s.retrieve 3 query).map (·.page_content))

/-- `refactor(code, instructions)`: build the prompt sections and invoke
the LLM chain (`chain code instructions_section context_section` models
`_refactor_chain.invoke({...})`).  The retrieval query is `code[:500]`. -/
def refactor (getStore : Except String CodeVectorStore)
    (chain : String → String → String → String) (code instructions : String) : String :=
  let context := rag_context getStore (code.take 500)
  let instructions_section :=
    if instructions.isEmpty then "" else "Specific instructions: " ++ instructions
  let context_section :=
    if context.isEmpty then ""
    else "Similar code patterns for reference:\n```python\n" ++ context ++ "\n```"
  chain code instructions_section context_section

/-! ## `index_github_repositories` (`src/agent/tools.py`) -/

/-- A repository item from the GitHub search response. -/
structure Repo where
  full_name : String
  stargazers_count : Nat
  deriving Repr, DecidableEq

/-- External collaborators of `index_github_repositories`: the configured
token, the search API (query, `per_page` ↦ items), the loader
(`load_repository` + `get_repository_documents`, which may raise), and the
splitter. -/
structure GitHubEnv where
  token : Option String
  search : String → Int → List Repo
  fetch : Repo → Except String (List Doc)
  split : List Doc → List Doc

/-- Insert a `','` after every group of three digits; input digits are
least-significant first. -/
def insertThousands : List Char → List Char
  | [] => []
  | [d] => [d]
  | [d1, d2] => [d1, d2]
  | d1 :: d2 :: d3 :: rest =>
      if rest.isEmpty then [d1, d2, d3]
      else d1 :: d2 :: d3 :: ',' :: insertThousands rest

/-- Python's `f"{n:,}"` comma-grouped decimal formatting. -/
def commaFormat (n : Nat) : String :=
  ((insertThousands (toString n).toList.reverse).reverse).asString

/-- Python's `repr` of a short plain string (no embedded quotes or
escapes), as used by `f"{query!r}"`. -/
def pyRepr (s : String) : String := "'" ++ s ++ "'"

/-- The status line for a successfully indexed repository:
`f"  + {full_name} ({stars:,} stars) — {len(docs)} files," + "\x7blen(chunks)\x7d chunks"`.
The second half of the concatenation in the source is a plain string
literal, so `chunks` is not interpolated. -/
def success_line (full_name : String) (stars : Nat) (docs chunks : List Doc) : String :=
  "  + " ++ full_name ++ " (" ++ commaFormat stars ++ " stars) — "
    ++ toString docs.length ++ " files," ++ "\x7blen(chunks)\x7d chunks"

/-- The status line for a repository whose fetch/parse raised:
`f"  - {full_name} — failed: {exc}"`. -/
def failure_line (full_name exc : String) : String :=
  "  - " ++ full_name ++ " — failed: " ++ exc

/-- The summary header:
`f"Indexing {count} repositor{...} for '{query}':"`. -/
def header_line (count : Nat) (query : String) : String :=
  "Indexing " ++ toString count ++ " repositor" ++ (if count = 1 then "y" else "ies")
    ++ " for '" ++ query ++ "':"

/-- The per-repository loop: each iteration fetches, splits and stores one
repository inside `try`, appending a success line, or catches the raised
exception and appends a failure line.  Returns the status lines and the
final index contents. -/
def process_repos (env : GitHubEnv) : List Repo → List Doc → List String × List Doc
  | [], store => ([], store)
  | repo :: rest, store =>
      match env.fetch repo with
      | .ok docs =>
          let chunks := env.split docs
          let (lines, store') := process_repos env rest (store ++ chunks)
          (success_line repo.full_name repo.stargazers_count docs chunks :: lines, store')
      | .error exc =>
          let (lines, store') := process_repos env rest store
          (failure_line repo.full_name exc :: lines, store')

/-- The early-exit message when no GitHub credential is configured. -/
def GITHUB_TOKEN_ERROR : String :=
  "Error: GITHUB_ACCESS_TOKEN is not set in .env — cannot search GitHub."

/-- Python's `if not token:` — true for an unset (`None`) or empty token. -/
def token_missing : Option String → Bool
  | none => true
  | some t => t.isEmpty

/-- Observable outcome of one `index_github_repositories` call: the
returned string, the `per_page` requested from the search API (`none`
when no network request was issued), and the final index contents. -/
structure IndexCallResult where
  result : String
  requested : Option Int
  store : List Doc
  deriving Repr, DecidableEq

/-- `index_github_repositories(query, max_repos)`: check the credential
before any network call, cap `max_repos` at 5, search, and either report
"no repositories" or run the per-repository loop under the summary
header. -/
def index_github_repositories (env : GitHubEnv) (query : String) (max_repos : Int)
    (store : List Doc) : IndexCallResult :=
  if token_missing env.token then ⟨GITHUB_TOKEN_ERROR, none, store⟩
  else
    let m := min max_repos 5
    let repos := env.search query m
    if repos.isEmpty then
      ⟨"No repositories found for query: " ++ pyRepr query, some m, store⟩
    else
      let (lines, store') := process_repos env repos store
      ⟨String.intercalate "\n" (header_line repos.length query :: lines), some m, store'⟩

/-! ## `RuffParser.extract_violations` (`src/utils/ruff_parser.py`)

The parser runs `json.loads(lint_output or "[]")` and formats each entry
with `f"{v['location']['row']}:{v['location']['column']} {v['code']}: {v['message']}"`.
`json.loads` (Python standard library) is modelled by a JSON value type
and a recursive-descent parser; numeric literals are restricted to
integers, which covers everything ruff emits. -/

/-- A JSON value as produced by `json.loads`. -/
inductive Json where
  | null
  | bool (b : Bool)
  | num (n : Int)
  | str (s : String)
  | arr (elems : List Json)
  | obj (fields : List (String × Json))

mutual

/-- Python `repr` of a decoded JSON value. -/
def jsonRepr : Json → String
  | .null => "None"
  | .bool true => "True"
  | .bool false => "False"
  | .num n => toString n
  | .str s => "'" ++ s ++ "'"
  | .arr xs => "[" ++ String.intercalate ", " (jsonReprList xs) ++ "]"
  | .obj fs => "\x7b" ++ String.intercalate ", " (jsonReprFields fs) ++ "\x7d"

def jsonReprList : List Json → List String
  | [] => []
  | x :: xs => jsonRepr x :: jsonReprList xs

def jsonReprFields : List (String × Json) → List String
  | [] => []
  | (k, v) :: xs => ("'" ++ k ++ "': " ++ jsonRepr v) :: jsonReprFields xs

end

/-- Python `str` of a decoded JSON value, as interpolated by an f-string. -/
def jsonStr : Json → String
  | .str s => s
  | j => jsonRepr j

/-- `d['key']` on a decoded JSON value: `KeyError` on a missing key,
`TypeError` when the value is not a dict. -/
def Json.getField (j : Json) (key : String) : Except String Json :=
  match j with
  | .obj fields =>
      match fields.lookup key with
      | some v => .ok v
      | none => .error ("KeyError: " ++ pyRepr key)
  | _ => .error "TypeError: value is not subscriptable by a string key"

/-- Skip JSON whitespace. -/
def skipWs : List Char → List Char
  | c :: cs => if c = ' ' ∨ c = '\n' ∨ c = '\t' ∨ c = '\r' then skipWs cs else c :: cs
  | [] => []

/-- Match a literal keyword (`null`, `true`, `false` tails). -/
def eatLiteral : List Char → List Char → Option (List Char)
  | [], cs => some cs
  | l :: ls, c :: cs => if c = l then eatLiteral ls cs else none
  | _ :: _, [] => none

/-- Decode the body of a JSON string after its opening quote, handling the
common escapes. -/
def parseStringBody : List Char → Except String (String × List Char)
  | [] => .error "Unterminated string"
  | '"' :: rest => .ok ("", rest)
  | '\\' :: e :: rest =>
      match
        (if e = '"' then some '"'
         else if e = '\\' then some '\\'
         else if e = '/' then some '/'
         else if e = 'n' then some '\n'
         else if e = 't' then some '\t'
         else if e = 'r' then some '\r'
         else none) with
      | some c => do
          let (s, rest') ← parseStringBody rest
          .ok (String.mk (c :: s.toList), rest')
      | none => .error "Invalid escape"
  | c :: rest => do
      let (s, rest') ← parseStringBody rest
      .ok (String.mk (c :: s.toList), rest')

/-- Decimal digits to the number they denote (most-significant first). -/
def digitsToNat (ds : List Char) : Nat :=
  ds.foldl (fun acc c => acc * 10 + (c.toNat - 48)) 0

/-- Parse a run of decimal digits. -/
def parseDigits : List Char → List Char × List Char
  | c :: cs =>
      if c.isDigit then
        let (ds, rest) := parseDigits cs
        (c :: ds, rest)
      else ([], c :: cs)
  | [] => ([], [])

mutual

/-- Recursive-descent JSON parser (fuel-indexed). -/
def parseJson : Nat → List Char → Except String (Json × List Char)
  | 0, _ => .error "Expecting value"
  | fuel + 1, cs =>
      match skipWs cs with
      | [] => .error "Expecting value"
      | c :: rest =>
          if c = 'n' then
            match eatLiteral ['u', 'l', 'l'] rest with
            | some rest' => .ok (.null, rest')
            | none => .error "Expecting value"
          else if c = 't' then
            match eatLiteral ['r', 'u', 'e'] rest with
            | some rest' => .ok (.bool true, rest')
            | none => .error "Expecting value"
          else if c = 'f' then
            match eatLiteral ['a', 'l', 's', 'e'] rest with
            | some rest' => .ok (.bool false, rest')
            | none => .error "Expecting value"
          else if c = '"' then do
            let (s, rest') ← parseStringBody rest
            .ok (.str s, rest')
          else if c = '[' then
            match skipWs rest with
            | ']' :: rest' => .ok (.arr [], rest')
            | rest' => do
                let (xs, rest'') ← parseElems fuel rest'
                .ok (.arr xs, rest'')
          else if c = '\x7b' then
            match skipWs rest with
            | '\x7d' :: rest' => .ok (.obj [], rest')
            | rest' => do
                let (fs, rest'') ← parseFields fuel rest'
                .ok (.obj fs, rest'')
          else if c = '-' then
            match parseDigits rest with
            | ([], _) => .error "Expecting value"
            | (ds, rest') => .ok (.num (-(digitsToNat ds : Int)), rest')
          else if c.isDigit then
            match parseDigits (c :: rest) with
            | (ds, rest') => .ok (.num (digitsToNat ds), rest')
          else .error "Expecting value"

/-- Parse one or more comma-separated array elements up to `]`. -/
def parseElems : Nat → List Char → Except String (List Json × List Char)
  | 0, _ => .error "Expecting value"
  | fuel + 1, cs => do
      let (x, rest) ← parseJson fuel cs
      match skipWs rest with
      | ',' :: rest' => do
          let (xs, rest'') ← parseElems fuel rest'
          .ok (x :: xs, rest'')
      | ']' :: rest' => .ok ([x], rest')
      | _ => .error "Expecting ',' delimiter"

/-- Parse one or more comma-separated object members up to the closing
brace. -/
def parseFields : Nat → List Char → Except String (List (String × Json) × List Char)
  | 0, _ => .error "Expecting value"
  | fuel + 1, cs =>
      match skipWs cs with
      | '"' :: rest => do
          let (k, rest1) ← parseStringBody rest
          match skipWs rest1 with
          | ':' :: rest2 => do
              let (v, rest3) ← parseJson fuel rest2
              match skipWs rest3 with
              | ',' :: rest4 => do
                  let (fs, rest5) ← parseFields fuel rest4
                  .ok ((k, v) :: fs, rest5)
              | '\x7d' :: rest4 => .ok ([(k, v)], rest4)
              | _ => .error "Expecting ',' delimiter"
          | _ => .error "Expecting ':' delimiter"
      | _ => .error "Expecting property name enclosed in double quotes"

end

/-- `json.loads(s)`: parse a complete JSON document; trailing non-space
input raises (`Extra data`). -/
def json_loads (s : String) : Except String Json := do
  let (j, rest) ← parseJson (4 * s.length + 16) s.toList
  match skipWs rest with
  | [] => .ok j
  | _ => .error "Extra data"

/-- Format one violation entry:
`f"{v['location']['row']}:{v['location']['column']} {v['code']}: {v['message']}"`,
propagating `KeyError`/`TypeError` on malformed entries. -/
def format_violation (v : Json) : Except String String := do
  let loc ← v.getField "location"
  let row ← loc.getField "row"
  let loc2 ← v.getField "location"
  let col ← loc2.getField "column"
  let code ← v.getField "code"
  let msg ← v.getField "message"
  .ok (jsonStr row ++ ":" ++ jsonStr col ++ " " ++ jsonStr code ++ ": " ++ jsonStr msg)

/-- The formatting list comprehension
`[f"..." for v in violations]`: format each entry left to right, the
first raised `KeyError`/`TypeError` propagating. -/
def format_violations : List Json → Except String (List String)
  | [] => .ok []
  | v :: vs =>
      match format_violation v with
      | .error e => .error e
      | .ok line =>
          match format_violations vs with
          | .error e => .error e
          | .ok rest => .ok (line :: rest)

/-- The decoded form of one entry of ruff's JSON findings, as used by the
sample linter outputs below. -/
def sampleViolation : Json :=
  Json.obj [("location", Json.obj [("row", Json.num 1), ("column", Json.num 5)]),
    ("code", Json.str "F821"), ("message", Json.str "Undefined name")]

namespace RuffParser

/-- `RuffParser.extract_violations(lint_output)`:
`json.loads(lint_output or "[]")` followed by the formatting list
comprehension.  A raised `JSONDecodeError` (or an error while iterating a
non-list document) propagates to the caller as `.error`. -/
def extract_violations (lint_output : String) : Except String (List String) :=
  match json_loads (if lint_output.isEmpty then "[]" else lint_output) with
  | .error e => .error e
  | .ok j =>
      match j with
      | .arr vs => format_violations vs
      | _ => .error "TypeError: decoded JSON document is not a list of violations"

end RuffParser

/-- The status line the loop produces for one repository, as a function of
the fetch outcome. -/
def repo_line (env : GitHubEnv) (repo : Repo) : String :=
  match env.fetch repo with
  | .ok docs => success_line repo.full_name repo.stargazers_count docs (env.split docs)
  | .error exc => failure_line repo.full_name exc

/-- The chunks one repository contributes to the index: its split
documents on success, nothing on failure. -/
def repo_chunks (env : GitHubEnv) (repo : Repo) : List Doc :=
  match env.fetch repo with
  | .ok docs => env.split docs
  | .error _ => []

/-! ## Concrete sample environments (used by witnesses) -/

/-- Documents of the first sample repository. -/
def sampleDocsA : List Doc := [⟨"def a(): pass"⟩, ⟨"def b(): pass"⟩]

/-- Documents of the third sample repository. -/
def sampleDocsC : List Doc := [⟨"def c(): pass"⟩]

/-- A sample environment: the search returns three repositories, the
middle one fails to fetch, the splitter doubles the documents. -/
def sampleEnv : GitHubEnv where
  token := some "ghp_sample"
  search := fun _ _ => [⟨"alice/alpha", 1234⟩, ⟨"bob/beta", 56⟩, ⟨"carol/gamma", 7⟩]
  fetch := fun r =>
    if r.full_name = "bob/beta" then .error "404 Not Found"
    else if r.full_name = "alice/alpha" then .ok sampleDocsA
    else .ok sampleDocsC
  split := fun docs => docs ++ docs

/-- A sample environment with no configured GitHub credential. -/
def sampleEnvNoToken : GitHubEnv where
  token := none
  search := fun _ _ => [⟨"alice/alpha", 1234⟩]
  fetch := fun _ => .error "unreachable"
  split := fun docs => docs

/-- A sample LLM chain that records its three prompt inputs. -/
def sampleChain : String → String → String → String :=
  fun code instructions_section context_section =>
    code ++ "||" ++ instructions_section ++ "||" ++ context_section

/-! # Theorems -/

/-- The per-repository loop, characterised: one status line per
repository (computed by `repo_line`), and the final index is the initial
index extended by exactly the successful repositories' chunks in
order. -/
theorem process_repos_eq (env : GitHubEnv) (repos : List Repo) (store : List Doc) :
    process_repos env repos store
      = (repos.map (repo_line env), store ++ (repos.map (repo_chunks env)).flatten) := by
  induction repos generalizing store with
  | nil => simp [process_repos]
  | cons repo rest ih =>
      cases hf : env.fetch repo with
      | ok docs =>
          simp [process_repos, hf, ih, repo_line, repo_chunks, List.append_assoc]
      | error exc =>
          simp [process_repos, hf, ih, repo_line, repo_chunks]

/-- C1: after the orchestrator's model call appends an assistant message,
the conditional edge sends the graph to the tool node exactly when the
message carries at least one tool call — and the tool node always returns
to the orchestrator; when the message carries none, the graph reaches the
terminal (`END`) node, ending the turn. -/
theorem orchestrator_tool_call_routing (msgs : List Message) (m : Message) :
    (m.tool_calls ≠ [] →
      next_node .orchestrator (msgs ++ [m]) (by simp) = .tools
        ∧ next_node .tools (msgs ++ [m]) (by simp) = .orchestrator)
    ∧ (m.tool_calls = [] → next_node .orchestrator (msgs ++ [m]) (by simp) = .terminal) := by
  have hlast : (msgs ++ [m]).getLast (by simp) = m := by
    simp [List.getLast_append]
  constructor
  · intro h
    refine ⟨?_, rfl⟩
    simp [next_node, should_continue, hlast, List.isEmpty_iff, h, END_NODE]
  · intro h
    simp [next_node, should_continue, hlast, List.isEmpty_iff, h, END_NODE]

/-- Witness for C1 at a concrete two-branch instance. -/
theorem orchestrator_tool_call_routing_witness :
    next_node .orchestrator ([] ++ [⟨"assistant", "", [⟨"lint", [("code", "x=1")], "call_1"⟩]⟩])
        (by simp) = .tools
      ∧ next_node .orchestrator ([] ++ [⟨"assistant", "all done", []⟩]) (by simp) = .terminal := by
  refine ⟨?_, ?_⟩
  · exact ((orchestrator_tool_call_routing [] ⟨"assistant", "", [⟨"lint", [("code", "x=1")], "call_1"⟩]⟩).1
      (by simp)).1
  · exact (orchestrator_tool_call_routing [] ⟨"assistant", "all done", []⟩).2 rfl

/-- C2 counterexample: on linter output that is not valid JSON,
`RuffParser.extract_violations` raises a JSON decode fault instead of
yielding an empty violation list. -/
theorem extract_violations_not_json_raises :
    RuffParser.extract_violations "not json" = .error "Expecting value" := rfl

/-- Extraction that succeeds yields exactly one formatted line per
violation entry. -/
theorem format_violations_length (vs : List Json) (lines : List String)
    (h : format_violations vs = Except.ok lines) : lines.length = vs.length := by
  induction vs generalizing lines with
  | nil =>
      simp [format_violations] at h
      simp [← h]
  | cons v rest ih =>
      simp only [format_violations] at h
      cases hv : format_violation v with
      | error e => rw [hv] at h; exact absurd h (by simp)
      | ok line =>
          rw [hv] at h
          cases hm : format_violations rest with
          | error e => rw [hm] at h; exact absurd h (by simp)
          | ok tail =>
              rw [hm] at h
              cases h
              simp [ih tail hm]

/-- C2 (amended): for every non-empty linter output whose JSON parse
raises, the extraction raises that same fault instead of yielding an
empty list; for every output that parses to a JSON array, the extraction
is the per-entry formatting comprehension, yielding one formatted line
per violation whenever it succeeds; the empty output and the empty array
yield an empty list without a fault. -/
theorem extract_violations_amended :
    (∀ out e : String, out.isEmpty = false → json_loads out = Except.error e →
        RuffParser.extract_violations out = Except.error e)
      ∧ (∀ (out : String) (vs : List Json),
          json_loads (if out.isEmpty then "[]" else out) = Except.ok (Json.arr vs) →
          RuffParser.extract_violations out = format_violations vs
            ∧ ∀ lines, format_violations vs = Except.ok lines → lines.length = vs.length)
      ∧ RuffParser.extract_violations "" = .ok []
      ∧ RuffParser.extract_violations "[]" = .ok []
      ∧ RuffParser.extract_violations
          "[\x7b\"location\": \x7b\"row\": 1, \"column\": 5\x7d, \"code\": \"F821\", \"message\": \"Undefined name\"\x7d]"
          = .ok ["1:5 F821: Undefined name"]
      ∧ (RuffParser.extract_violations "ruff: command not found").isOk = false := by
  refine ⟨?_, ?_, rfl, rfl, by rfl, rfl⟩
  · intro out e hout hjson
    simp [RuffParser.extract_violations, hout, hjson]
  · intro out vs hjson
    exact ⟨by simp [RuffParser.extract_violations, hjson],
      fun lines h => format_violations_length vs lines h⟩

/-- Witness for C2's amended theorem: a concrete non-JSON output raising
the parse fault, and a concrete one-violation array extracted as its one
formatted line. -/
theorem extract_violations_amended_witness :
    RuffParser.extract_violations "not a json document" = Except.error "Expecting value"
      ∧ RuffParser.extract_violations
          "[\x7b\"location\": \x7b\"row\": 1, \"column\": 5\x7d, \"code\": \"F821\", \"message\": \"Undefined name\"\x7d]"
          = format_violations [sampleViolation]
      ∧ (["1:5 F821: Undefined name"] : List String).length = [sampleViolation].length := by
  refine ⟨?_, ?_, ?_⟩
  · exact extract_violations_amended.1 "not a json document" "Expecting value" rfl (by rfl)
  · exact (extract_violations_amended.2.1
      "[\x7b\"location\": \x7b\"row\": 1, \"column\": 5\x7d, \"code\": \"F821\", \"message\": \"Undefined name\"\x7d]"
      [sampleViolation] (by rfl)).1
  · exact (extract_violations_amended.2.1
      "[\x7b\"location\": \x7b\"row\": 1, \"column\": 5\x7d, \"code\": \"F821\", \"message\": \"Undefined name\"\x7d]"
      [sampleViolation] (by rfl)).2 ["1:5 F821: Undefined name"] (by rfl)

/-- C7: whatever the pytest invocation does — complete with a passing or
failing exit code, or raise before running — the temporary test file is
gone from the file system when `run_tests` returns. -/
theorem run_tests_removes_artifact (runner : String → SubprocessOutcome)
    (fs : List (String × String)) (tmp_path test_code : String) :
    ((run_tests runner fs tmp_path test_code).snd.all (fun e => !(e.fst == tmp_path))) = true := by
  have hfilter : ∀ l : List (String × String),
      ((l.filter (fun e => decide (e.fst ≠ tmp_path))).all (fun e => !(e.fst == tmp_path))) = true := by
    intro l
    rw [List.all_eq_true]
    intro e he
    rw [List.mem_filter] at he
    simpa using he.2
  cases h : runner tmp_path with
  | completed rc out err => simp [run_tests, h, hfilter (fs ++ [(tmp_path, test_code)])]
  | raised e => simp [run_tests, h, hfilter (fs ++ [(tmp_path, test_code)])]

/-- C8 counterexample: two formatter runs that differ only in exit status
(0: clean run, 2: tool failure) produce identical `format_code` results
— the exit status is not part of the result, so the caller cannot
distinguish "no change" from "tool failure" by inspecting it. -/
theorem format_code_discards_exit_status :
    format_code (fun _ _ => ⟨0, "x = 1\n", ""⟩) "x = 1\n"
        = format_code (fun _ _ => ⟨2, "x = 1\n", "error: internal panic"⟩) "x = 1\n"
      ∧ (0 : Int) ≠ 2 :=
  ⟨rfl, by decide⟩

/-- C8 (amended): `format_code` returns the formatter's captured stdout
verbatim for every exit status — but only the stdout: runs whose captured
stdout agrees are indistinguishable in the result, whatever their exit
codes. -/
theorem format_code_returns_stdout (run : List String → String → CompletedProcess)
    (code : String) :
    format_code run code = (run (("ruff" :: "format" :: STDIN_ARGS)) code).stdout
      ∧ ∀ run' : List String → String → CompletedProcess,
          (run' (("ruff" :: "format" :: STDIN_ARGS)) code).stdout
              = (run (("ruff" :: "format" :: STDIN_ARGS)) code).stdout →
          format_code run' code = format_code run code := by
  refine ⟨rfl, ?_⟩
  intro run' h
  simp [format_code, h]

/-- Witness for C8's amended theorem at a concrete formatter run. -/
theorem format_code_returns_stdout_witness :
    format_code (fun _ _ => ⟨0, "y = 2\n", ""⟩) "y=2"
        = (⟨0, "y = 2\n", ""⟩ : CompletedProcess).stdout
      ∧ format_code (fun _ _ => ⟨1, "y = 2\n", "warn"⟩) "y=2"
          = format_code (fun _ _ => ⟨0, "y = 2\n", ""⟩) "y=2" := by
  have h := format_code_returns_stdout (fun _ _ => ⟨0, "y = 2\n", ""⟩) "y=2"
  exact ⟨h.1, h.2 (fun _ _ => ⟨1, "y = 2\n", "warn"⟩) rfl⟩

/-- C3: with a configured token, whenever the search step returns a
non-empty repository list, the call produces exactly one status line per
repository (plus the header), the final index is the initial index
extended by precisely the successful repositories' chunks, and a
repository whose fetch raises is recorded with a failure line and
contributes no chunks — without affecting any other repository. -/
theorem index_repositories_per_repo_isolation (env : GitHubEnv) (query : String)
    (max_repos : Int) (store : List Doc) (t : String)
    (htok : env.token = some t) (hne : t.isEmpty = false)
    (hrepos : env.search query (min max_repos 5) ≠ []) :
    index_github_repositories env query max_repos store
        = ⟨String.intercalate "\n"
              (header_line (env.search query (min max_repos 5)).length query
                :: (env.search query (min max_repos 5)).map (repo_line env)),
            some (min max_repos 5),
            store ++ ((env.search query (min max_repos 5)).map (repo_chunks env)).flatten⟩
      ∧ ((env.search query (min max_repos 5)).map (repo_line env)).length
          = (env.search query (min max_repos 5)).length
      ∧ ∀ r ∈ env.search query (min max_repos 5), ∀ e, env.fetch r = .error e →
          repo_line env r = failure_line r.full_name e ∧ repo_chunks env r = [] := by
  refine ⟨?_, by simp, ?_⟩
  · have hm : (env.search query (min max_repos 5)).isEmpty = false := by
      simpa [List.isEmpty_iff] using hrepos
    simp [index_github_repositories, token_missing, htok, hne, hm, process_repos_eq]
  · intro r hr e he
    simp [repo_line, repo_chunks, he]

/-- Witness for C3: three matched repositories, the middle fetch fails →
the summary has the header, two success lines and one failure line, and
the index holds only the two successes' chunks. -/
theorem index_repositories_per_repo_isolation_witness :
    (index_github_repositories sampleEnv "parsers" 3 []).result
        = "Indexing 3 repositories for 'parsers':\n"
            ++ "  + alice/alpha (1,234 stars) — 2 files,\x7blen(chunks)\x7d chunks\n"
            ++ "  - bob/beta — failed: 404 Not Found\n"
            ++ "  + carol/gamma (7 stars) — 1 files,\x7blen(chunks)\x7d chunks"
      ∧ (index_github_repositories sampleEnv "parsers" 3 []).store
          = (sampleDocsA ++ sampleDocsA) ++ (sampleDocsC ++ sampleDocsC) := by
  have h := (index_repositories_per_repo_isolation sampleEnv "parsers" 3 [] "ghp_sample"
    rfl rfl (by decide)).1
  rw [h]
  exact ⟨rfl, rfl⟩

/-- C4 (code bug): in a fresh process the module-level name
`vector_store` is unbound, so every call to
`vector_store_singleton.get_vector_store` — the first included — raises
`NameError` and never constructs the store; by contrast the parallel
accessor `_get_vector_store` in `agent/tools.py` (whose module binds
`_vector_store = None`) constructs exactly once on first call and
returns that same instance on every call. -/
theorem vector_store_singleton_unbound_global :
    (get_vector_store singletonModuleInit).fst
        = .exn "NameError: name 'vector_store' is not defined"
      ∧ (∀ n, singleton_calls n = singletonModuleInit)
      ∧ (∀ n, (get_vector_store (singleton_calls n)).fst
            = .exn "NameError: name 'vector_store' is not defined"
          ∧ (singleton_calls n).constructions = 0)
      ∧ (∀ n, tools_calls (n + 1) = ⟨some 0, 1⟩
          ∧ (tools_get_vector_store (tools_calls n)).fst = 0) := by
  have hs : ∀ n, singleton_calls n = singletonModuleInit := by
    intro n
    induction n with
    | zero => rfl
    | succ n ih => simp [singleton_calls, ih, get_vector_store, singletonModuleInit]
  have ht : ∀ n, tools_calls (n + 1) = ⟨some 0, 1⟩ := by
    intro n
    induction n with
    | zero => rfl
    | succ n ih =>
        have hstep : tools_calls (n + 1 + 1) = (tools_get_vector_store (tools_calls (n + 1))).snd :=
          rfl
        rw [hstep, ih]
        rfl
  refine ⟨rfl, hs, fun n => by rw [hs n]; exact ⟨rfl, rfl⟩, fun n => ⟨ht n, ?_⟩⟩
  cases n with
  | zero => rfl
  | succ m =>
      rw [show tools_calls (m + 1) = ⟨some 0, 1⟩ from ht m]
      rfl

/-- C5: with no configured credential (token unset or empty), the call
returns the single-line error naming `GITHUB_ACCESS_TOKEN`, issues no
search request, and leaves the index exactly as it was. -/
theorem index_repositories_missing_token (env : GitHubEnv) (query : String)
    (max_repos : Int) (store : List Doc)
    (h : env.token = none ∨ env.token = some "") :
    index_github_repositories env query max_repos store = ⟨GITHUB_TOKEN_ERROR, none, store⟩
      ∧ GITHUB_TOKEN_ERROR.toList.all (· ≠ '\n') = true
      ∧ ∃ pre post, GITHUB_TOKEN_ERROR = pre ++ "GITHUB_ACCESS_TOKEN" ++ post := by
  refine ⟨?_, by decide, "Error: ", " is not set in .env — cannot search GitHub.", rfl⟩
  have hm : token_missing env.token = true := by
    rcases h with h | h <;> rw [h] <;> rfl
  simp [index_github_repositories, hm]

/-- Witness for C5 with the token unset. -/
theorem index_repositories_missing_token_witness :
    index_github_repositories sampleEnvNoToken "parsers" 3 [] = ⟨GITHUB_TOKEN_ERROR, none, []⟩ :=
  (index_repositories_missing_token sampleEnvNoToken "parsers" 3 [] (Or.inl rfl)).1

/-- C6: whenever a search request is issued, its `per_page` is exactly
`min(max_repos, 5)` — never more than 5 — and a call with
`max_repos = 10` is indistinguishable from one with `max_repos = 5`. -/
theorem index_repositories_hard_cap (env : GitHubEnv) (query : String) (max_repos : Int)
    (store : List Doc) :
    (∀ p, (index_github_repositories env query max_repos store).requested = some p →
        p = min max_repos 5 ∧ p ≤ 5)
      ∧ index_github_repositories env query 10 store
          = index_github_repositories env query 5 store := by
  constructor
  · intro p hp
    cases htm : token_missing env.token with
    | true => simp [index_github_repositories, htm] at hp
    | false =>
        simp only [index_github_repositories, htm, Bool.false_eq_true, if_false] at hp
        split at hp <;>
          · have hpe := Option.some.inj hp
            exact ⟨hpe.symm, by omega⟩
  · have hmin : (min (10 : Int) 5) = min (5 : Int) 5 := by decide
    simp only [index_github_repositories, hmin]

/-- Witness for C6: at the sample environment the requested `per_page`
for `max_repos = 10` is 5, and the two calls coincide. -/
theorem index_repositories_hard_cap_witness :
    index_github_repositories sampleEnv "async web framework" 10 []
        = index_github_repositories sampleEnv "async web framework" 5 []
      ∧ ((5 : Int) = min (10 : Int) 5 ∧ (5 : Int) ≤ 5) := by
  have h := index_repositories_hard_cap sampleEnv "async web framework" 10 []
  exact ⟨h.2, h.1 5 (by decide)⟩

/-- C9: the refactor tool retrieves at most 3 chunks, queries with only
the first 500 characters of the code (codes agreeing on that prefix get
the same retrieved context), and when retrieval raises or returns
nothing it still invokes the LLM chain, with an empty context section. -/
theorem refactor_retrieval_bounds (getStore : Except String CodeVectorStore)
    (chain : String → String → String → String) (code instructions : String) :
    (rag_docs getStore (code.take 500)).length ≤ 3
      ∧ (rag_docs getStore (code.take 500) = [] →
          refactor getStore chain code instructions
            = chain code
                (if instructions.isEmpty then "" else "Specific instructions: " ++ instructions)
                "")
      ∧ ∀ code' : String, code.take 500 = code'.take 500 →
          rag_context getStore (code.take 500) = rag_context getStore (code'.take 500) := by
  refine ⟨?_, ?_, ?_⟩
  · cases getStore with
    | error e => simp [rag_docs]
    | ok s => exact List.length_take_le 3 (s.rank (code.take 500) s.docs)
  · intro h
    have hctx : rag_context getStore (code.take 500) = "" := by
      cases getStore with
      | error e => rfl
      | ok s =>
          have hret : s.retrieve 3 (code.take 500) = [] := by simpa [rag_docs] using h
          show String.intercalate "\n\n---\n\n"
            ((s.retrieve 3 (code.take 500)).map (·.page_content)) = ""
          rw [hret]
          rfl
    simp [refactor, hctx]
    rfl
  · intro code' h
    rw [h]

/-- Witness for C9: with an unavailable store the chain still runs with
an empty context section, and the retrieved context is determined by the
500-character query prefix. -/
theorem refactor_retrieval_bounds_witness :
    refactor (Except.error "embedding model unavailable") sampleChain
        "def f(): pass" "use dataclasses"
        = sampleChain "def f(): pass" "Specific instructions: use dataclasses" ""
      ∧ rag_context (Except.error "embedding model unavailable")
            (String.take "def g(): return 1" 500)
          = rag_context (Except.error "embedding model unavailable")
              (String.take "def g(): return 1" 500) := by
  constructor
  · exact (refactor_retrieval_bounds (Except.error "embedding model unavailable") sampleChain
      "def f(): pass" "use dataclasses").2.1 rfl
  · exact (refactor_retrieval_bounds (Except.error "embedding model unavailable") sampleChain
      "def g(): return 1" "x").2.2 "def g(): return 1" rfl

/-- C10: the summary's status lines never depend on the splitter's output
(so the actual chunk count cannot appear in them), the success line is
independent of the chunk list entirely, and concretely it ends with the
unsubstituted literal text `\x7blen(chunks)\x7d chunks` while still
reporting the file count. -/
theorem summary_chunk_count_is_literal :
    (∀ env : GitHubEnv, ∀ split' : List Doc → List Doc, ∀ repos : List Repo, ∀ store : List Doc,
        (process_repos { env with split := split' } repos store).fst
          = (process_repos env repos store).fst)
      ∧ (∀ full_name stars docs chunks chunks',
          success_line full_name stars docs chunks = success_line full_name stars docs chunks')
      ∧ success_line "alice/alpha" 1234 sampleDocsA (sampleDocsA ++ sampleDocsA)
          = "  + alice/alpha (1,234 stars) — 2 files," ++ "\x7blen(chunks)\x7d chunks" := by
  refine ⟨?_, fun _ _ _ _ _ => rfl, by rfl⟩
  intro env split' repos store
  rw [process_repos_eq, process_repos_eq]
  have hline : repo_line { env with split := split' } = repo_line env := by
    funext r
    unfold repo_line
    cases h : env.fetch r <;> simp [h, success_line]
  simp [hline]

end DevTools
